import Mathlib

/-!
# Verification of the Progo real-time rep-detection engine

Shallow embedding, over `ℚ` for real-valued quantities and `ℕ` for counters,
of the core components of `app/ml/` in the Progo backend:

* `WorkoutManager._update_rep_patterns` (workout_manager.py)
* `WorkoutManager._handle_rep_detected` workout progression (workout_manager.py)
* `PersonalizedTimingValidator.validate_rep_timing` (rep_detection.py)
* `MotionCycleAnalyzer` (rep_detection.py)
* `MLConfidenceTracker.detect_confidence_cycle` (rep_detection.py)
* `RepStateMachine.update` (rep_detection.py)
* `RealTimeInference.predict_exercise` (inference.py)
* `FeatureExtractor` (preprocessing.py)

Timestamps (Python `datetime`) are modelled as rational numbers of seconds;
`a - b` in seconds becomes rational subtraction.  Database persistence,
logging and WebSocket broadcasts are side effects outside the computation
being verified; the values the code stores/sends are modelled as returned
data.
-/

namespace Progo

/-- Arithmetic mean of a list of rationals, `np.mean` (for nonempty lists;
every use below is guarded by a length check, as in the source). -/
def listMean (xs : List ℚ) : ℚ := xs.sum / (xs.length : ℚ)

/-- Minimum of a list, `np.min` (0 on the empty list; every use below is
guarded by a nonemptiness check, as in the source). -/
def listMin : List ℚ → ℚ
  | [] => 0
  | x :: xs => xs.foldl min x

/-- Maximum of a list, `np.max` (0 on the empty list). -/
def listMax : List ℚ → ℚ
  | [] => 0
  | x :: xs => xs.foldl max x

/-! ## RepPattern and `WorkoutManager._update_rep_patterns`

`RepPattern` columns used by the update rule (app/models/database.py):
`avg_rep_duration`, `min_rep_duration`, `max_rep_duration`,
`avg_rest_between_reps`, `training_session_count`, `confidence_score`. -/

structure RepPattern where
  avg_rep_duration : ℚ
  min_rep_duration : ℚ
  max_rep_duration : ℚ
  avg_rest_between_reps : ℚ
  training_session_count : ℕ
  confidence_score : ℚ
  deriving Repr, DecidableEq

/-- `WorkoutManager._update_rep_patterns` (workout_manager.py lines 257-297),
as a function from the stored pattern (`none` when no row exists for the
device/exercise) and the completed workout's accepted rep durations to the
stored pattern afterwards.  The source returns early — leaving the pattern
untouched — when fewer than 3 rep durations were recorded
(`if len(rep_durations) < 3: return  # Need minimum samples`); otherwise it
creates a fresh pattern or blends the old one with the workout's mean using
weights `n/(n+1)` and `1/(n+1)`. -/
def updateRepPatterns (pattern : Option RepPattern) (rep_durations : List ℚ) :
    Option RepPattern :=
  if rep_durations.length < 3 then pattern
  else
    match pattern with
    | none =>
        some { avg_rep_duration := listMean rep_durations
               min_rep_duration := listMin rep_durations
               max_rep_duration := listMax rep_durations
               avg_rest_between_reps := 2.0
               training_session_count := 1
               confidence_score := 0.7 }
    | some p =>
        let old_weight : ℚ := (p.training_session_count : ℚ) / ((p.training_session_count : ℚ) + 1)
        let new_weight : ℚ := 1 / ((p.training_session_count : ℚ) + 1)
        some { avg_rep_duration :=
                 p.avg_rep_duration * old_weight + listMean rep_durations * new_weight
               min_rep_duration := min p.min_rep_duration (listMin rep_durations)
               max_rep_duration := max p.max_rep_duration (listMax rep_durations)
               avg_rest_between_reps := p.avg_rest_between_reps
               training_session_count := p.training_session_count + 1
               confidence_score := min 0.95 (p.confidence_score + 0.05) }

/-- The stored pattern of claim C1: `avg_rep_duration = 2.0`,
`training_session_count = 1` (other fields at the values
`_update_rep_patterns` itself would have initialised them to). -/
def c1Pattern : RepPattern :=
  { avg_rep_duration := 2.0
    min_rep_duration := 1.0
    max_rep_duration := 4.0
    avg_rest_between_reps := 2.0
    training_session_count := 1
    confidence_score := 0.7 }

/-! ## Workout progression: `WorkoutManager._handle_rep_detected`

`WorkoutSession` counters (app/models/database.py): `current_set` defaults
to 1, `current_reps` to 0, `status` to `active`.  The handler increments
`current_reps`, emits a set-completion event once the per-set rep target is
reached, and either completes the workout (when the set target is also
reached) or rolls to the next set resetting `current_reps`.  Database
writes, session statistics and WebSocket broadcasts are modelled by the
returned event flags. -/

inductive WorkoutStatus where
  | active
  | paused
  | completed
  | cancelled
  deriving Repr, DecidableEq

structure WorkoutSession where
  current_set : ℕ
  current_reps : ℕ
  target_sets : ℕ
  target_reps_per_set : ℕ
  status : WorkoutStatus
  deriving Repr, DecidableEq

/-- A fresh `WorkoutSession` row, with the column defaults of
app/models/database.py (`current_set = 1`, `current_reps = 0`,
`status = active`). -/
def startWorkoutSession (target_sets target_reps_per_set : ℕ) : WorkoutSession :=
  { current_set := 1
    current_reps := 0
    target_sets := target_sets
    target_reps_per_set := target_reps_per_set
    status := WorkoutStatus.active }

/-- The progression events one call of `_handle_rep_detected` emits: a
rep-completed event is always sent; `set_completed` / `workout_completed`
mirror the booleans of the same names in the source. -/
structure RepHandleEvents where
  rep_completed : Bool
  set_completed : Bool
  workout_completed : Bool
  deriving Repr, DecidableEq

/-- `WorkoutManager._handle_rep_detected` (workout_manager.py lines
104-191), restricted to the workout-progression state it mutates and the
events it emits.  Mirrors the source: `current_reps += 1`; if
`current_reps >= target_reps_per_set` the set completes, and then either
the workout completes (`current_set >= target_sets`) or the session moves
to the next set with `current_reps = 0`. -/
def handleRepDetected (w : WorkoutSession) : WorkoutSession × RepHandleEvents :=
  let w := { w with current_reps := w.current_reps + 1 }
  if w.current_reps ≥ w.target_reps_per_set then
    if w.current_set ≥ w.target_sets then
      ({ w with status := WorkoutStatus.completed },
       { rep_completed := true, set_completed := true, workout_completed := true })
    else
      ({ w with current_set := w.current_set + 1, current_reps := 0 },
       { rep_completed := true, set_completed := true, workout_completed := false })
  else
    (w, { rep_completed := true, set_completed := false, workout_completed := false })

/-- Feed `n` accepted reps through `handleRepDetected` in order, collecting
the per-rep event records (head of the event list = first rep). -/
def runReps : ℕ → WorkoutSession → WorkoutSession × List RepHandleEvents
  | 0, w => (w, [])
  | n + 1, w =>
      let (w', e) := handleRepDetected w
      let (w'', es) := runReps n w'
      (w'', e :: es)

/-! ## `PersonalizedTimingValidator.validate_rep_timing`

The validator holds an optional learned `RepPattern` and the timestamp of
the last accepted rep; defaults (rep_detection.py lines 274-276):
`default_min_rep_duration = 1.0`, `default_max_rep_duration = 8.0`,
`default_min_rest_time = 0.5`.  A candidate carries its duration and end
time (rep_detection.py lines 291-318). -/

structure TimingValidator where
  rep_pattern : Option RepPattern
  last_rep_time : Option ℚ
  deriving Repr, DecidableEq

/-- `PersonalizedTimingValidator.validate_rep_timing` (rep_detection.py
lines 291-318): reject when a last accepted rep exists and the elapsed time
since it is below `0.5 × avg_rest_between_reps` (0.5 s without a pattern);
reject when the duration is outside
`[max(0.7·min_rep_duration, 0.8), min(1.5·max_rep_duration, 12)]`
(`[1.0, 8.0]` without a pattern); accept otherwise. -/
def validateRepTiming (v : TimingValidator) (rep_duration end_time : ℚ) : Bool :=
  let tooSoon : Bool :=
    match v.last_rep_time with
    | none => false
    | some t =>
        let time_since_last_rep := end_time - t
        let min_rest_time : ℚ :=
          match v.rep_pattern with
          | some p => p.avg_rest_between_reps * 0.5
          | none => 0.5
        decide (time_since_last_rep < min_rest_time)
  if tooSoon then false
  else
    let bounds : ℚ × ℚ :=
      match v.rep_pattern with
      | some p => (max (p.min_rep_duration * 0.7) 0.8, min (p.max_rep_duration * 1.5) 12.0)
      | none => (1.0, 8.0)
    if bounds.1 ≤ rep_duration ∧ rep_duration ≤ bounds.2 then true
    else false

/-- The learned pattern of claim C3: `avg_rep_duration = 2.0`,
`min_rep_duration = 1.0`, `max_rep_duration = 4.0` (average rest at the
source's initialisation default of 2.0). -/
def c3Pattern : RepPattern :=
  { avg_rep_duration := 2.0
    min_rep_duration := 1.0
    max_rep_duration := 4.0
    avg_rest_between_reps := 2.0
    training_session_count := 1
    confidence_score := 0.7 }

/-! ## `MLConfidenceTracker`

Rolling buffer (deque `maxlen=50`) of (prediction, confidence, timestamp)
entries; detection parameters from `__init__` (rep_detection.py lines
207-215): `high_confidence_threshold = 0.8`,
`low_confidence_threshold = 0.6`, `stability_window = 10`.  The separate
`prediction_buffer` the source also appends to is never read by
`detect_confidence_cycle` and is omitted. -/

/-- Append to a deque with the given `maxlen`, evicting from the front. -/
def pushBounded {α : Type} (maxlen : ℕ) (xs : List α) (x : α) : List α :=
  let ys := xs ++ [x]
  ys.drop (ys.length - maxlen)

structure ConfEntry where
  prediction : String
  confidence : ℚ
  timestamp : ℚ
  deriving Repr, DecidableEq

structure ConfidenceTracker where
  confidence_buffer : List ConfEntry
  deriving Repr, DecidableEq

def highConfidenceThreshold : ℚ := 0.8

def stabilityWindow : ℕ := 10

/-- `MLConfidenceTracker.add_prediction` (rep_detection.py lines 217-224). -/
def addPrediction (tr : ConfidenceTracker) (prediction : String) (confidence ts : ℚ) :
    ConfidenceTracker :=
  { confidence_buffer :=
      pushBounded 50 tr.confidence_buffer
        { prediction := prediction, confidence := confidence, timestamp := ts } }

/-- The dictionary `detect_confidence_cycle` returns on success.  Python
dictionaries read downstream via `.get(key, default)` are modelled with an
optional field; the tracker itself always populates `avg_confidence`. -/
structure ConfidenceCycleData where
  detected_at : ℚ
  avg_confidence : Option ℚ
  deriving Repr, DecidableEq

/-- `MLConfidenceTracker.detect_confidence_cycle` (rep_detection.py lines
226-259): `none` when fewer than `2×stability_window` entries are buffered;
otherwise split the most recent 20 entries into two halves of 10 and detect
a cycle when both halves' mean confidence strictly exceeds 0.8 and each
half holds at most 2 distinct predicted labels. -/
def detectConfidenceCycle (tr : ConfidenceTracker) : Option ConfidenceCycleData :=
  if tr.confidence_buffer.length < stabilityWindow * 2 then none
  else
    let recent := tr.confidence_buffer.drop (tr.confidence_buffer.length - stabilityWindow * 2)
    let first_half := recent.take stabilityWindow
    let second_half := recent.drop stabilityWindow
    let first_avg_conf := listMean (first_half.map (·.confidence))
    let second_avg_conf := listMean (second_half.map (·.confidence))
    let first_stable := (first_half.map (·.prediction)).dedup.length ≤ 2
    let second_stable := (second_half.map (·.prediction)).dedup.length ≤ 2
    if first_avg_conf > highConfidenceThreshold ∧ second_avg_conf > highConfidenceThreshold ∧
        first_stable ∧ second_stable then
      some { detected_at := (match recent.getLast? with | some e => e.timestamp | none => 0)
             avg_confidence := some ((first_avg_conf + second_avg_conf) / 2) }
    else none

/-- Feed a list of (prediction, confidence, timestamp) triples through the
tracker, running one `detect_confidence_cycle` check after each
`add_prediction`, and count the detections. -/
def runTracker (inputs : List (String × ℚ × ℚ)) : ConfidenceTracker × ℕ :=
  inputs.foldl
    (fun acc inp =>
      let tr := addPrediction acc.1 inp.1 inp.2.1 inp.2.2
      (tr, acc.2 + (if (detectConfidenceCycle tr).isSome then 1 else 0)))
    ({ confidence_buffer := [] }, 0)

/-! ## `RepStateMachine` -/

inductive MotionPhase where
  | rest
  | up_motion
  | peak
  | down_motion
  | transition
  deriving Repr, DecidableEq

inductive RepDetectionMethod where
  | motion_cycle
  | ml_confidence
  | hybrid
  deriving Repr, DecidableEq

/-- `RepCandidate` (rep_detection.py lines 35-44); the `motion_data` dict
the state machine attaches (`motion_complete`, `ml_complete`,
`motion_phase`) is inlined as the `md_*` fields. -/
structure RepCandidate where
  start_time : ℚ
  end_time : ℚ
  confidence : ℚ
  motion_quality : ℚ
  duration : ℚ
  detection_method : RepDetectionMethod
  md_motion_complete : Bool
  md_ml_complete : Bool
  md_motion_phase : Option MotionPhase
  deriving Repr, DecidableEq

/-- `RepStateMachine.current_state` together with `rep_start_time`: the
source keeps the strings "waiting"/"detecting" plus an optional start time,
and only ever reads the start time while detecting. -/
inductive RepMachineState where
  | waiting
  | detecting (rep_start_time : ℚ)
  deriving Repr, DecidableEq

/-- `RepStateMachine.update` (rep_detection.py lines 370-433).  The motion
signal is the phase being one of up_motion/peak/down_motion (a `None` phase
— analyzer buffer still short — gives no signal); the ML signal is a
confidence-cycle dictionary being present.  `waiting` → `detecting` on any
signal; while `detecting`, a candidate is produced when the phase is `rest`
more than 1 s after the recorded start or a confidence cycle is present,
and the machine resets to `waiting`. -/
def repMachineUpdate (st : RepMachineState) (motion_phase : Option MotionPhase)
    (ml_confidence_data : Option ConfidenceCycleData) (now : ℚ) :
    RepMachineState × Option RepCandidate :=
  let motion_signal : Bool :=
    motion_phase = some MotionPhase.up_motion ∨ motion_phase = some MotionPhase.peak ∨
      motion_phase = some MotionPhase.down_motion
  let ml_signal : Bool := ml_confidence_data.isSome
  match st with
  | RepMachineState.waiting =>
      if motion_signal || ml_signal then (RepMachineState.detecting now, none)
      else (RepMachineState.waiting, none)
  | RepMachineState.detecting start =>
      let motion_complete : Bool :=
        motion_phase = some MotionPhase.rest ∧ now - start > 1.0
      let ml_complete : Bool := ml_signal
      if motion_complete || ml_complete then
        let rep_duration := now - start
        let method_confidence : RepDetectionMethod × ℚ :=
          if motion_complete && ml_complete then (RepDetectionMethod.hybrid, 0.9)
          else if motion_complete then (RepDetectionMethod.motion_cycle, 0.7)
          else
            (RepDetectionMethod.ml_confidence,
             match ml_confidence_data with
             | some d => d.avg_confidence.getD 0.6
             | none => 0.6)
        let motion_quality : ℚ :=
          match ml_confidence_data with
          | some d => max 0.8 (d.avg_confidence.getD 0.8)
          | none => 0.8
        (RepMachineState.waiting,
         some { start_time := start
                end_time := now
                confidence := method_confidence.2
                motion_quality := motion_quality
                duration := rep_duration
                detection_method := method_confidence.1
                md_motion_complete := motion_complete
                md_ml_complete := ml_complete
                md_motion_phase := motion_phase })
      else (RepMachineState.detecting start, none)

/-- The form-warning trigger of `WorkoutManager._handle_rep_detected`
(workout_manager.py lines 133-137): a warning is broadcast exactly when the
accepted rep's motion quality is below 0.6. -/
def formWarningTriggered (c : RepCandidate) : Bool := c.motion_quality < 0.6

/-! ## `MotionCycleAnalyzer`

The phase logic and the quality metrics read only the acceleration
magnitude of each buffered point (`p['accel_mag']`; the gyroscope average
is computed but never used), so the buffer is modelled as the list of
acceleration magnitudes.  The source derives the magnitude from the axis
components with `math.sqrt`; the analyzer here consumes the magnitudes
directly, which is how both the claim and the spec describe the synthetic
trace.  Thresholds from `__init__` (rep_detection.py lines 52-63). -/

def restThreshold : ℚ := 1.5

def motionThreshold : ℚ := 3.0

def peakThreshold : ℚ := 8.0

def minPhaseDuration : ℚ := 0.3

def analyzerWindowSize : ℕ := 50

structure MotionAnalyzer where
  motion_buffer : List ℚ
  current_phase : MotionPhase
  phase_start_time : ℚ
  last_peak_time : Option ℚ
  deriving Repr, DecidableEq

/-- A fresh `MotionCycleAnalyzer`, constructed at time `t0`. -/
def mkMotionAnalyzer (t0 : ℚ) : MotionAnalyzer :=
  { motion_buffer := []
    current_phase := MotionPhase.rest
    phase_start_time := t0
    last_peak_time := none }

/-- `MotionCycleAnalyzer._analyze_motion_phase` (rep_detection.py lines
98-140): with at least 10 buffered points, average the most recent 10
acceleration magnitudes and apply the phase-transition table; entering
`peak` records the peak timestamp.  Returns `none` (Python `None`) while
the buffer is shorter than 10, else the (possibly updated) current phase. -/
def analyzeMotionPhase (st : MotionAnalyzer) (current_time : ℚ) :
    MotionAnalyzer × Option MotionPhase :=
  if st.motion_buffer.length < 10 then (st, none)
  else
    let recent := st.motion_buffer.drop (st.motion_buffer.length - 10)
    let avg_accel := listMean recent
    let phase_duration := current_time - st.phase_start_time
    let new_phase : Option MotionPhase :=
      match st.current_phase with
      | MotionPhase.rest =>
          if avg_accel > motionThreshold ∧ phase_duration > minPhaseDuration then
            some MotionPhase.up_motion
          else none
      | MotionPhase.up_motion =>
          if avg_accel > peakThreshold then some MotionPhase.peak
          else if avg_accel < restThreshold ∧ phase_duration > minPhaseDuration then
            some MotionPhase.rest
          else none
      | MotionPhase.peak =>
          if avg_accel < motionThreshold ∧ phase_duration > 0.1 then
            some MotionPhase.down_motion
          else none
      | MotionPhase.down_motion =>
          if avg_accel < restThreshold ∧ phase_duration > minPhaseDuration then
            some MotionPhase.rest
          else none
      | MotionPhase.transition => none
    match new_phase with
    | some np =>
        if np ≠ st.current_phase then
          ({ st with current_phase := np
                     phase_start_time := current_time
                     last_peak_time :=
                       if np = MotionPhase.peak then some current_time
                       else st.last_peak_time },
           some np)
        else (st, some st.current_phase)
    | none => (st, some st.current_phase)

/-- `MotionCycleAnalyzer.add_sensor_data` (rep_detection.py lines 65-96):
append the new point (deque `maxlen=50`) and analyze the motion phase. -/
def addSensorData (st : MotionAnalyzer) (accel_mag current_time : ℚ) :
    MotionAnalyzer × Option MotionPhase :=
  analyzeMotionPhase
    { st with motion_buffer := pushBounded analyzerWindowSize st.motion_buffer accel_mag }
    current_time

/-- `np.diff`: successive differences. -/
def listDiff (xs : List ℚ) : List ℚ :=
  (xs.zip (xs.drop 1)).map (fun p => p.2 - p.1)

/-- Population variance, `np.var`. -/
def popVar (xs : List ℚ) : ℚ :=
  let m := listMean xs
  listMean (xs.map (fun x => (x - m) ^ 2))

/-- `MotionCycleAnalyzer._calculate_motion_smoothness` (rep_detection.py
lines 172-185): clamp of `1 − mean|second difference|/10`. -/
def motionSmoothness (motion_data : List ℚ) : ℚ :=
  if motion_data.length < 10 then 0.5
  else
    let jerk := listDiff (listDiff motion_data)
    let avg_jerk := listMean (jerk.map (fun x => |x|))
    max 0 (min 1 (1 - avg_jerk / 10))

/-- `MotionCycleAnalyzer._calculate_motion_consistency` (rep_detection.py
lines 187-199): clamp of `1 − variance/25`. -/
def motionConsistency (motion_data : List ℚ) : ℚ :=
  if motion_data.length < 10 then 0.5
  else
    let motion_variance := popVar motion_data
    max 0 (min 1 (1 - motion_variance / 25))

structure RepCycleData where
  detected_at : ℚ
  motion_quality : ℚ
  peak_time : ℚ
  deriving Repr, DecidableEq

/-- `MotionCycleAnalyzer.detect_rep_cycle` (rep_detection.py lines
142-170): no candidate until the buffer is full (50 points); a candidate
fires when the phase is `rest` and a peak was recorded within the last 5
seconds, and firing clears the recorded peak to avoid double counting. -/
def detectRepCycle (st : MotionAnalyzer) (now : ℚ) :
    MotionAnalyzer × Option RepCycleData :=
  if st.motion_buffer.length < analyzerWindowSize then (st, none)
  else
    match st.last_peak_time with
    | some p =>
        if st.current_phase = MotionPhase.rest ∧ now - p < 5.0 then
          let recent := st.motion_buffer.drop (st.motion_buffer.length - 30)
          let motion_smoothness := motionSmoothness recent
          let motion_consistency := motionConsistency recent
          ({ st with last_peak_time := none },
           some { detected_at := now
                  motion_quality := (motion_smoothness + motion_consistency) / 2
                  peak_time := p })
        else (st, none)
    | none => (st, none)

/-- Drive the analyzer over a list of (acceleration magnitude, timestamp)
samples, running one `detect_rep_cycle` check (at the sample's time) after
each `add_sensor_data`, collecting the phase after each step and the number
of motion-cycle candidates fired. -/
def runAnalyzer (samples : List (ℚ × ℚ)) :
    MotionAnalyzer × List MotionPhase × ℕ :=
  samples.foldl
    (fun acc s =>
      let (st1, _) := addSensorData acc.1 s.1 s.2
      let (st2, cand) := detectRepCycle st1 s.2
      (st2, acc.2.1 ++ [st2.current_phase],
       acc.2.2 + (if cand.isSome then 1 else 0)))
    (mkMotionAnalyzer 0, [], 0)

/-- Collapse consecutive duplicates, to read off the traversed phase
sequence of a trace. -/
def dedupConsec {α : Type} [DecidableEq α] : List α → List α
  | [] => []
  | [a] => [a]
  | a :: b :: rest =>
      if a = b then dedupConsec (b :: rest) else a :: dedupConsec (b :: rest)

/-- The synthetic trace of claim C6: 55 samples at 0.1 s intervals
(t = 0.1 … 5.5); acceleration magnitude 0 at rest, ramping to a 10-sample
plateau of magnitude 10 (samples 13-22), then back to 0. -/
def c6Trace : List (ℚ × ℚ) :=
  (List.range 55).map
    (fun i => (if 12 ≤ i ∧ i < 22 then (10 : ℚ) else 0, ((i : ℚ) + 1) / 10))

/-! ## `FeatureExtractor` (preprocessing.py)

Feature values are modelled as `Option ℚ`: `none` is IEEE NaN, `some q` a
finite value.  NaN enters this pipeline from `scipy.stats.skew` /
`scipy.stats.kurtosis` on a zero-variance axis (0/0; scipy returns nan for
constant input) and from `np.corrcoef` on a constant input; the source
guards the correlation (`0.0 if np.isnan`) and the accel/gyro ratio
(explicit `> 0` test) but stores skewness and kurtosis unguarded.
Overflow-generated NaN/inf is outside this idealised model.

`math.sqrt`/`np.sqrt` appear only with nonnegative arguments (sums of
squares, variances), where IEEE sqrt is NaN-free; `sqrtQ` is a rational
stand-in (√(n/d) = √(n·d)/d, floor square root at 6 decimal digits).  No
property proved below depends on its rounding, only on `sqrtQ q ≥ 0` and
`sqrtQ q > 0` for `q > 0`. -/

def sqrtQ (q : ℚ) : ℚ :=
  if q ≤ 0 then 0
  else
    let s : ℚ := (Nat.sqrt (q.num.toNat * q.den * 10 ^ 12) : ℚ) / ((q.den : ℚ) * 10 ^ 6)
    if s = 0 then q else s

/-- One sensor reading as consumed by
`FeatureExtractor.extract_features_from_readings`: required accel/gyro
axes, timestamp (`r.get('timestamp', 0)` — absent modelled as 0), optional
magnetometer triple. -/
structure SensorReading where
  timestamp : ℚ
  accel_x : ℚ
  accel_y : ℚ
  accel_z : ℚ
  gyro_x : ℚ
  gyro_y : ℚ
  gyro_z : ℚ
  mag : Option (ℚ × ℚ × ℚ)
  deriving Repr, DecidableEq

/-- Population standard deviation, `np.std`. -/
def stdQ (xs : List ℚ) : ℚ := sqrtQ (popVar xs)

/-- Population central moment of order `k`. -/
def centralMoment (k : ℕ) (xs : List ℚ) : ℚ :=
  let m := listMean xs
  listMean (xs.map (fun x => (x - m) ^ k))

/-- `scipy.stats.skew` (default `bias=True`): `m₃ / m₂^1.5`; NaN (`none`)
on a zero-variance input (0/0 — scipy returns nan for constant input). -/
def skewQ (xs : List ℚ) : Option ℚ :=
  let m2 := centralMoment 2 xs
  if m2 = 0 then none
  else some (centralMoment 3 xs / (m2 * sqrtQ m2))

/-- `scipy.stats.kurtosis` (default Fisher): `m₄ / m₂² − 3`; NaN on a
zero-variance input. -/
def kurtosisQ (xs : List ℚ) : Option ℚ :=
  let m2 := centralMoment 2 xs
  if m2 = 0 then none
  else some (centralMoment 4 xs / m2 ^ 2 - 3)

/-- `FeatureExtractor._zero_crossing_rate` (preprocessing.py lines
191-194): sign-bit changes between consecutive samples over the length
(`np.signbit` is `< 0`). -/
def zeroCrossingRate (xs : List ℚ) : ℚ :=
  if xs.length = 0 then 0
  else
    (((xs.zip (xs.drop 1)).countP
        (fun p => decide (p.1 < 0) != decide (p.2 < 0)) : ℚ)) / (xs.length : ℚ)

/-- `scipy.signal.find_peaks(xs, height=h)`: indices of local maxima with
value at least `h`.  scipy reports the middle sample of a flat-topped
plateau; this model uses strict local maxima, which agrees with scipy on
all traces used here and, for the properties proved (counts are finite
numbers, keys are fixed), the plateau convention is irrelevant. -/
def findPeaks (xs : List ℚ) (height : ℚ) : List ℕ :=
  (List.range xs.length).filter
    (fun i =>
      decide (0 < i) && decide (i + 1 < xs.length) &&
        decide (xs.getD (i - 1) 0 < xs.getD i 0) &&
        decide (xs.getD (i + 1) 0 < xs.getD i 0) &&
        decide (height ≤ xs.getD i 0))

/-- Euclidean norm of a 3-axis sample, `np.sqrt(np.sum(data**2, axis=1))`
per row. -/
def axisMag (v : ℚ × ℚ × ℚ) : ℚ := sqrtQ (v.1 ^ 2 + v.2.1 ^ 2 + v.2.2 ^ 2)

/-- Per-axis statistical block of
`FeatureExtractor._extract_sensor_features` (preprocessing.py lines
76-95): mean, std, min, max, range, skew, kurtosis, rms, zero-crossing
rate, peak count and peak frequency, keyed `{prefix}_{axis}_{stat}`. -/
def statPairs (pre ax : String) (xs : List ℚ) : List (String × Option ℚ) :=
  [ (pre ++ "_" ++ ax ++ "_mean", some (listMean xs)),
    (pre ++ "_" ++ ax ++ "_std", some (stdQ xs)),
    (pre ++ "_" ++ ax ++ "_min", some (listMin xs)),
    (pre ++ "_" ++ ax ++ "_max", some (listMax xs)),
    (pre ++ "_" ++ ax ++ "_range", some (listMax xs - listMin xs)),
    (pre ++ "_" ++ ax ++ "_skew", skewQ xs),
    (pre ++ "_" ++ ax ++ "_kurtosis", kurtosisQ xs),
    (pre ++ "_" ++ ax ++ "_rms", some (sqrtQ (listMean (xs.map (fun x => x ^ 2))))),
    (pre ++ "_" ++ ax ++ "_zcr", some (zeroCrossingRate xs)),
    (pre ++ "_" ++ ax ++ "_peak_count", some ((findPeaks xs (listMean xs)).length : ℚ)),
    (pre ++ "_" ++ ax ++ "_peak_freq",
      some (if xs.length > 0 then ((findPeaks xs (listMean xs)).length : ℚ) / (xs.length : ℚ)
            else 0)) ]

/-- Magnitude block of `_extract_sensor_features` (preprocessing.py lines
97-104). -/
def magPairs (pre : String) (magnitude : List ℚ) : List (String × Option ℚ) :=
  [ (pre ++ "_mag_mean", some (listMean magnitude)),
    (pre ++ "_mag_std", some (stdQ magnitude)),
    (pre ++ "_mag_min", some (listMin magnitude)),
    (pre ++ "_mag_max", some (listMax magnitude)),
    (pre ++ "_mag_range", some (listMax magnitude - listMin magnitude)) ]

/-- `np.fft.fftfreq(n)[:n//2]`: the one-sided frequency bins `k/n`. -/
def fftFreqsHalf (n : ℕ) : List ℚ :=
  (List.range (n / 2)).map (fun k => (k : ℚ) / (n : ℚ))

/-- One-sided FFT magnitude spectrum
`np.abs(np.fft.fft(x))[:len(x)//2]`.  The true DFT bins use irrational
trigonometric weights and are not exactly representable over ℚ; every
property proved about the spectral features depends only on the spectrum
being a list of `len/2` finite nonnegative values, so the bins are modelled
by the exactly-representable DC magnitude `|Σx|` and the triangle-
inequality envelope `Σ|x|` at the other bins. -/
def fftMagSpectrum (xs : List ℚ) : List ℚ :=
  (List.range (xs.length / 2)).map
    (fun k => if k = 0 then |xs.sum| else (xs.map (fun x => |x|)).sum)

/-- Running prefix sums, `np.cumsum`. -/
def cumSum (xs : List ℚ) : List ℚ := (xs.scanl (· + ·) 0).drop 1

/-- `np.argmax`: index of the first occurrence of the maximum. -/
def argmaxIdx (xs : List ℚ) : ℕ := xs.findIdx (fun x => decide (x = listMax xs))

/-- `FeatureExtractor._spectral_rolloff` (preprocessing.py lines 196-204):
first frequency at which cumulative spectral energy reaches 85% of the
total (0.0 when no index qualifies). -/
def spectralRolloff (fft_mag freqs : List ℚ) : ℚ :=
  let energies := fft_mag.map (fun m => m ^ 2)
  let threshold_energy := 0.85 * energies.sum
  match (cumSum energies).findIdx? (fun c => decide (threshold_energy ≤ c)) with
  | some i => freqs.getD i 0
  | none => 0

/-- Per-axis frequency block of
`FeatureExtractor._extract_frequency_features` (preprocessing.py lines
112-134): spectral centroid (0 when the spectrum sums to 0), rolloff,
flux, dominant frequency bin and its magnitude. -/
def freqPairs (pre ax : String) (xs : List ℚ) : List (String × Option ℚ) :=
  let fft_mag := fftMagSpectrum xs
  let freqs := fftFreqsHalf xs.length
  [ (pre ++ "_" ++ ax ++ "_spectral_centroid",
      some (if fft_mag.sum > 0 then
              ((freqs.zip fft_mag).map (fun p => p.1 * p.2)).sum / fft_mag.sum
            else 0)),
    (pre ++ "_" ++ ax ++ "_spectral_rolloff", some (spectralRolloff fft_mag freqs)),
    (pre ++ "_" ++ ax ++ "_spectral_flux",
      some (((listDiff fft_mag).map (fun d => d ^ 2)).sum)),
    (pre ++ "_" ++ ax ++ "_dominant_freq", some (freqs.getD (argmaxIdx fft_mag) 0)),
    (pre ++ "_" ++ ax ++ "_dominant_freq_mag", some (fft_mag.getD (argmaxIdx fft_mag) 0)) ]

/-- `FeatureExtractor._extract_sensor_features` (preprocessing.py lines
68-110): per-axis statistics, magnitude statistics, and — only when the
window holds at least 32 samples — the per-axis frequency features. -/
def sensorFeatures (pre : String) (data : List (ℚ × ℚ × ℚ)) : List (String × Option ℚ) :=
  let xs := data.map (fun v => v.1)
  let ys := data.map (fun v => v.2.1)
  let zs := data.map (fun v => v.2.2)
  let magnitude := data.map axisMag
  statPairs pre "x" xs ++ statPairs pre "y" ys ++ statPairs pre "z" zs ++
    magPairs pre magnitude ++
    (if 32 ≤ data.length then
      freqPairs pre "x" xs ++ freqPairs pre "y" ys ++ freqPairs pre "z" zs
    else [])

/-- Pearson correlation `np.corrcoef(xs, ys)[0, 1]`; NaN (`none`) when
either input has zero variance (0/0 — a constant input makes both the
covariance and that standard deviation 0). -/
def corrQ (xs ys : List ℚ) : Option ℚ :=
  let vx := popVar xs
  let vy := popVar ys
  if vx = 0 ∨ vy = 0 then none
  else
    let mx := listMean xs
    let my := listMean ys
    let cov := listMean ((xs.zip ys).map (fun p => (p.1 - mx) * (p.2 - my)))
    some (cov / (sqrtQ vx * sqrtQ vy))

/-- `FeatureExtractor._extract_cross_sensor_features` (preprocessing.py
lines 136-152): per-axis accel/gyro Pearson correlation resolved to 0.0
when NaN, movement intensity, and the accel/gyro magnitude ratio resolved
to 0 when the gyro magnitude mean is not positive. -/
def crossFeatures (accel_data gyro_data : List (ℚ × ℚ × ℚ)) :
    List (String × Option ℚ) :=
  let accel_mag := accel_data.map axisMag
  let gyro_mag := gyro_data.map axisMag
  [ ("accel_gyro_x_correlation",
      some ((corrQ (accel_data.map (fun v => v.1)) (gyro_data.map (fun v => v.1))).getD 0)),
    ("accel_gyro_y_correlation",
      some ((corrQ (accel_data.map (fun v => v.2.1)) (gyro_data.map (fun v => v.2.1))).getD 0)),
    ("accel_gyro_z_correlation",
      some ((corrQ (accel_data.map (fun v => v.2.2)) (gyro_data.map (fun v => v.2.2))).getD 0)),
    ("movement_intensity", some (listMean accel_mag * listMean gyro_mag)),
    ("accel_gyro_ratio",
      some (if listMean gyro_mag > 0 then listMean accel_mag / listMean gyro_mag else 0)) ]

/-- `FeatureExtractor._extract_temporal_features` (preprocessing.py lines
154-189): estimated sampling rate and jitter from the timestamp
differences, activity ratio, and the autocorrelation rhythm features
(lags 1–19, guarded by `len > 20`; the `gyro_data` parameter of the source
is unused). -/
def temporalFeatures (timestamps : List ℚ) (accel_data : List (ℚ × ℚ × ℚ)) :
    List (String × Option ℚ) :=
  let base : List (String × Option ℚ) :=
    if timestamps.length > 1 then
      let time_diffs := listDiff timestamps
      let avg_sampling_interval := listMean time_diffs
      [ ("estimated_sampling_rate",
          some (if avg_sampling_interval > 0 then 1000 / avg_sampling_interval else 0)),
        ("sampling_jitter", some (stdQ time_diffs)) ]
    else
      [ ("estimated_sampling_rate", some 0), ("sampling_jitter", some 0) ]
  let accel_mag := accel_data.map axisMag
  let mean_activity := listMean accel_mag
  let activity : List (String × Option ℚ) :=
    [ ("activity_ratio",
        some ((accel_mag.countP (fun m => decide (mean_activity < m)) : ℚ) /
          (accel_mag.length : ℚ))) ]
  let rhythm : List (String × Option ℚ) :=
    if accel_mag.length > 20 then
      let autocorr :=
        (List.range accel_mag.length).map
          (fun k => ((accel_mag.zip (accel_mag.drop k)).map (fun p => p.1 * p.2)).sum)
      let seg := (autocorr.drop 1).take 19
      let ac0 := autocorr.headD 0
      let peaks := findPeaks seg (listMax autocorr * 0.3)
      [ ("rhythm_strength", some (if ac0 > 0 then listMax seg / ac0 else 0)),
        ("primary_rhythm_period",
          some (match peaks.head? with | some i => (i : ℚ) + 1 | none => 0)) ]
    else
      [ ("rhythm_strength", some 0), ("primary_rhythm_period", some 0) ]
  base ++ activity ++ rhythm

/-- Magnetometer availability test of `extract_features_from_readings`
(preprocessing.py line 41). -/
def hasMagData (readings : List SensorReading) : Bool :=
  readings.all (fun r => r.mag.isSome)

/-- The feature dictionary built by `extract_features_from_readings` once
the window-size guard has passed: accelerometer block, gyroscope block,
magnetometer block when every reading carries one, cross-sensor block,
temporal block. -/
def extractFeaturesCore (readings : List SensorReading) : List (String × Option ℚ) :=
  let accel_data := readings.map (fun r => (r.accel_x, r.accel_y, r.accel_z))
  let gyro_data := readings.map (fun r => (r.gyro_x, r.gyro_y, r.gyro_z))
  sensorFeatures "accel" accel_data ++ sensorFeatures "gyro" gyro_data ++
    (if hasMagData readings then
      sensorFeatures "mag" (readings.map (fun r => r.mag.getD (0, 0, 0)))
    else []) ++
    crossFeatures accel_data gyro_data ++
    temporalFeatures (readings.map (fun r => r.timestamp)) accel_data

inductive FeatureError where
  | insufficientWindow
  deriving Repr, DecidableEq

/-- `FeatureExtractor.extract_features_from_readings` (preprocessing.py
lines 23-66): `ValueError("Need at least 10 readings…")` below 10 readings
(modelled as the `insufficientWindow` error), otherwise the feature
dictionary. -/
def extractFeaturesFromReadings (readings : List SensorReading) :
    Except FeatureError (List (String × Option ℚ)) :=
  if readings.length < 10 then Except.error FeatureError.insufficientWindow
  else Except.ok (extractFeaturesCore readings)

/-! ### Feature key sets -/

/-- Keys of the per-axis statistical block, in emission order. -/
def statKeys (pre ax : String) : List String :=
  [pre ++ "_" ++ ax ++ "_mean", pre ++ "_" ++ ax ++ "_std", pre ++ "_" ++ ax ++ "_min",
   pre ++ "_" ++ ax ++ "_max", pre ++ "_" ++ ax ++ "_range", pre ++ "_" ++ ax ++ "_skew",
   pre ++ "_" ++ ax ++ "_kurtosis", pre ++ "_" ++ ax ++ "_rms", pre ++ "_" ++ ax ++ "_zcr",
   pre ++ "_" ++ ax ++ "_peak_count", pre ++ "_" ++ ax ++ "_peak_freq"]

/-- Keys of the magnitude block. -/
def magKeys (pre : String) : List String :=
  [pre ++ "_mag_mean", pre ++ "_mag_std", pre ++ "_mag_min", pre ++ "_mag_max",
   pre ++ "_mag_range"]

/-- Keys of the per-axis spectral block (present only for windows of at
least 32 samples). -/
def freqKeys (pre ax : String) : List String :=
  [pre ++ "_" ++ ax ++ "_spectral_centroid", pre ++ "_" ++ ax ++ "_spectral_rolloff",
   pre ++ "_" ++ ax ++ "_spectral_flux", pre ++ "_" ++ ax ++ "_dominant_freq",
   pre ++ "_" ++ ax ++ "_dominant_freq_mag"]

/-- Keys `_extract_sensor_features` emits for one sensor, with or without
the spectral block. -/
def sensorKeys (pre : String) (spectral : Bool) : List String :=
  statKeys pre "x" ++ statKeys pre "y" ++ statKeys pre "z" ++ magKeys pre ++
    (if spectral then freqKeys pre "x" ++ freqKeys pre "y" ++ freqKeys pre "z" else [])

def crossKeys : List String :=
  ["accel_gyro_x_correlation", "accel_gyro_y_correlation", "accel_gyro_z_correlation",
   "movement_intensity", "accel_gyro_ratio"]

def temporalKeys : List String :=
  ["estimated_sampling_rate", "sampling_jitter", "activity_ratio", "rhythm_strength",
   "primary_rhythm_period"]

/-- All keys of the feature dictionary, as a function of magnetometer
availability and of whether the window reaches the 32-sample spectral
threshold. -/
def featureKeys (hm spectral : Bool) : List String :=
  sensorKeys "accel" spectral ++ sensorKeys "gyro" spectral ++
    (if hm then sensorKeys "mag" spectral else []) ++ crossKeys ++ temporalKeys

/-- Every spectral feature key any sensor could emit. -/
def spectralKeyList : List String :=
  freqKeys "accel" "x" ++ freqKeys "accel" "y" ++ freqKeys "accel" "z" ++
    freqKeys "gyro" "x" ++ freqKeys "gyro" "y" ++ freqKeys "gyro" "z" ++
    freqKeys "mag" "x" ++ freqKeys "mag" "y" ++ freqKeys "mag" "z"

/-- The skewness and kurtosis keys — the only features the extractor
stores without a NaN guard. -/
def skewKurtKeyList : List String :=
  ["accel_x_skew", "accel_x_kurtosis", "accel_y_skew", "accel_y_kurtosis",
   "accel_z_skew", "accel_z_kurtosis", "gyro_x_skew", "gyro_x_kurtosis",
   "gyro_y_skew", "gyro_y_kurtosis", "gyro_z_skew", "gyro_z_kurtosis",
   "mag_x_skew", "mag_x_kurtosis", "mag_y_skew", "mag_y_kurtosis",
   "mag_z_skew", "mag_z_kurtosis"]

/-! ## `RealTimeInference.predict_exercise` (inference.py)

The pickled model package (feature-name list, fitted scaler, classifier,
label encoder) is an opaque learned artifact; its numeric behaviour is
modelled as an abstract function from the assembled feature vector to a
(label, confidence) pair.  `model_package` and `feature_extractor` are set
together by `load_active_model`, so the `not self.model_package or not
self.feature_extractor` guard is one optional value; the extractor's
configured `window_size` comes from the artifact.  Each early
`return None` branch of the source logs a distinct reason and is modelled
as a distinct error. -/

inductive PredictError where
  | noModelLoaded
  | noSensorData
  | insufficientWindow
  | predictionFailed
  deriving Repr, DecidableEq

structure ModelPackage where
  feature_names : List String
  window_size : ℕ
  scale_and_classify : List (Option ℚ) → String × ℚ

/-- `RealTimeInference` state: the active model package (none before
`load_active_model` succeeds) and the per-device sensor buffers. -/
structure InferenceState where
  model_package : Option ModelPackage
  sensor_buffers : List (String × List SensorReading)

/-- `RealTimeInference.predict_exercise` (inference.py lines 121-207):
error when no model package is active; error when the device has no
buffer; error when the buffer holds fewer samples than the extractor's
configured window size; otherwise extract features from the latest
window, assemble the vector in `feature_names` order
(`features.get(name, 0.0)`) and classify.  The `try/except` that turns an
extraction exception into `None` is the `predictionFailed` error. -/
def predictExercise (st : InferenceState) (device_id : String) :
    Except PredictError (String × ℚ) :=
  match st.model_package with
  | none => Except.error PredictError.noModelLoaded
  | some pkg =>
      match st.sensor_buffers.lookup device_id with
      | none => Except.error PredictError.noSensorData
      | some buffer =>
          if buffer.length < pkg.window_size then
            Except.error PredictError.insufficientWindow
          else
            let latest_readings := buffer.drop (buffer.length - pkg.window_size)
            match extractFeaturesFromReadings latest_readings with
            | Except.error _ => Except.error PredictError.predictionFailed
            | Except.ok features =>
                let feature_vector :=
                  pkg.feature_names.map (fun name => (features.lookup name).getD (some 0))
                Except.ok (pkg.scale_and_classify feature_vector)

/-! ### Helper views used by the theorem statements -/

/-- The minimum-rest threshold `validate_rep_timing` applies:
`avg_rest_between_reps * 0.5` with a learned pattern, the 0.5 s default
without. -/
def minRestTime (v : TimingValidator) : ℚ :=
  match v.rep_pattern with
  | some p => p.avg_rest_between_reps * 0.5
  | none => 0.5

/-- The acceptable duration window `validate_rep_timing` applies:
`[max(0.7·min, 0.8), min(1.5·max, 12)]` with a learned pattern,
`[1.0, 8.0]` without. -/
def durationBounds (v : TimingValidator) : ℚ × ℚ :=
  match v.rep_pattern with
  | some p => (max (p.min_rep_duration * 0.7) 0.8, min (p.max_rep_duration * 1.5) 12.0)
  | none => (1.0, 8.0)

/-- The most recent `2×stability_window` tracker entries. -/
def recentWindow (tr : ConfidenceTracker) : List ConfEntry :=
  tr.confidence_buffer.drop (tr.confidence_buffer.length - stabilityWindow * 2)

/-- First half of the recent window. -/
def firstHalf (tr : ConfidenceTracker) : List ConfEntry :=
  (recentWindow tr).take stabilityWindow

/-- Second half of the recent window. -/
def secondHalf (tr : ConfidenceTracker) : List ConfEntry :=
  (recentWindow tr).drop stabilityWindow

/-- Claim C7's first trace: 20 identical predictions of one label with
confidence 0.9 (> 0.8), at 1 s intervals. -/
def c7HighTrace : List (String × ℚ × ℚ) :=
  (List.range 20).map (fun i => ("bicep_curl", 0.9, (i : ℚ)))

/-- Claim C7's second trace: 20 predictions oscillating between two labels
with confidence 0.5 (< 0.6). -/
def c7OscTrace : List (String × ℚ × ℚ) :=
  (List.range 20).map
    (fun i => (if i % 2 = 0 then "rest" else "bicep_curl", 0.5, (i : ℚ)))

/-- A window of `n` identical readings (constant axes): accel `(1, 2, 2)`
— acceleration magnitude exactly 3 — zero gyroscope, no magnetometer,
1-unit timestamps. -/
def mkConstReadings (n : ℕ) : List SensorReading :=
  (List.range n).map
    (fun i =>
      { timestamp := (i : ℚ), accel_x := 1, accel_y := 2, accel_z := 2,
        gyro_x := 0, gyro_y := 0, gyro_z := 0, mag := none })

/-- The 10-sample constant window used against claim C4. -/
def c4Window : List SensorReading := mkConstReadings 10

/-- The skew/kurtosis keys one sensor block can emit. -/
def sensorSkewKurtKeys (pre : String) : List String :=
  [pre ++ "_" ++ "x" ++ "_skew", pre ++ "_" ++ "x" ++ "_kurtosis",
   pre ++ "_" ++ "y" ++ "_skew", pre ++ "_" ++ "y" ++ "_kurtosis",
   pre ++ "_" ++ "z" ++ "_skew", pre ++ "_" ++ "z" ++ "_kurtosis"]

/-- The spectral keys of the two always-present sensors. -/
def accelGyroSpectralKeys : List String :=
  freqKeys "accel" "x" ++ freqKeys "accel" "y" ++ freqKeys "accel" "z" ++
    freqKeys "gyro" "x" ++ freqKeys "gyro" "y" ++ freqKeys "gyro" "z"

/-- A model package whose artifact is configured with the default
`window_size = 200` (inference.py line 76); the learned scaler/classifier
pair is an opaque function. -/
def c9Package : ModelPackage :=
  { feature_names := []
    window_size := 200
    scale_and_classify := fun _ => ("bicep_curl", 1) }

/-- The candidate `RepStateMachine.update` produces from `detecting 0` at
time 2 with phase `rest` and no ML signal (used to witness C8). -/
def c8Candidate : RepCandidate :=
  { start_time := 0
    end_time := 2
    confidence := 0.7
    motion_quality := 0.8
    duration := 2 - 0
    detection_method := RepDetectionMethod.motion_cycle
    md_motion_complete := true
    md_ml_complete := false
    md_motion_phase := some MotionPhase.rest }

end Progo
namespace Progo

set_option maxRecDepth 100000 in
/-- C6: the synthetic rest → ramp-to-10 → hold → ramp-down → rest
magnitude trace drives the analyzer through exactly
rest → up_motion → peak → down_motion → rest and fires exactly one
motion-cycle candidate; in general a candidate fires when the machine is
back in rest with a peak recorded within the last 5 seconds (and a full
buffer), and firing clears the recorded peak. -/
theorem motion_cycle_trace :
    (dedupConsec (runAnalyzer c6Trace).2.1 =
      [MotionPhase.rest, MotionPhase.up_motion, MotionPhase.peak,
       MotionPhase.down_motion, MotionPhase.rest]) ∧
    (runAnalyzer c6Trace).2.2 = 1 ∧
    (∀ (st : MotionAnalyzer) (now p : ℚ),
        st.motion_buffer.length = analyzerWindowSize → st.last_peak_time = some p →
        st.current_phase = MotionPhase.rest → now - p < 5.0 →
        (detectRepCycle st now).2.isSome ∧ (detectRepCycle st now).1.last_peak_time = none) := by
  refine ⟨by with_unfolding_all rfl, by with_unfolding_all rfl, ?_⟩
  intro st now p hlen hpeak hphase hrecent
  have hnotlt : ¬ (st.motion_buffer.length < analyzerWindowSize) := by
    rw [hlen]
    exact Nat.lt_irrefl _
  unfold detectRepCycle
  rw [if_neg hnotlt, hpeak]
  simp [hphase, hrecent]

/-- C6 witness: the general detection clause applied to a concrete
full-buffer rest state with a peak 3 s ago. -/
theorem motion_cycle_trace_witness :
    (detectRepCycle
        { motion_buffer := List.replicate 50 0, current_phase := MotionPhase.rest,
          phase_start_time := 4, last_peak_time := some 2 } 5).2.isSome ∧
    (detectRepCycle
        { motion_buffer := List.replicate 50 0, current_phase := MotionPhase.rest,
          phase_start_time := 4, last_peak_time := some 2 } 5).1.last_peak_time = none :=
  motion_cycle_trace.2.2
    { motion_buffer := List.replicate 50 0, current_phase := MotionPhase.rest,
      phase_start_time := 4, last_peak_time := some 2 } 5 2
    (by decide) rfl rfl (by with_unfolding_all decide)

/-- C7: a confidence cycle is detected exactly when at least
`2×stability_window` entries are buffered, both 10-entry halves of the most
recent 20 have mean confidence above 0.8, and each half holds at most 2
distinct labels; 20 identical 0.9-confidence predictions yield exactly one
detection over the 20 per-prediction checks, and 20 oscillating
0.5-confidence predictions yield none. -/
theorem confidence_cycle_spec :
    (∀ tr : ConfidenceTracker,
        (detectConfidenceCycle tr).isSome ↔
          (stabilityWindow * 2 ≤ tr.confidence_buffer.length ∧
            listMean ((firstHalf tr).map (fun en => en.confidence)) > highConfidenceThreshold ∧
            listMean ((secondHalf tr).map (fun en => en.confidence)) > highConfidenceThreshold ∧
            ((firstHalf tr).map (fun en => en.prediction)).dedup.length ≤ 2 ∧
            ((secondHalf tr).map (fun en => en.prediction)).dedup.length ≤ 2)) ∧
    (runTracker c7HighTrace).2 = 1 ∧
    (runTracker c7OscTrace).2 = 0 := by
  refine ⟨?_, by with_unfolding_all rfl, by with_unfolding_all rfl⟩
  intro tr
  by_cases hlen : tr.confidence_buffer.length < stabilityWindow * 2
  · simp [detectConfidenceCycle, hlen, Nat.not_le.mpr hlen]
  · simp only [detectConfidenceCycle, firstHalf, secondHalf, recentWindow, if_neg hlen]
    rw [Nat.not_lt] at hlen
    split
    next h =>
      exact iff_of_true rfl ⟨hlen, h.1, h.2.1, h.2.2.1, h.2.2.2⟩
    next h =>
      simp only [Option.isSome_none, Bool.false_eq_true, false_iff]
      rintro ⟨-, h1, h2, h3, h4⟩
      exact h ⟨h1, h2, h3, h4⟩

end Progo
namespace Progo

/-- C8: from the detecting state, a candidate is produced exactly when
the phase is rest more than 1 s after the recorded start or a confidence
cycle is present; its duration is now − start; its method/confidence are
hybrid/0.9 (both signals), motion_cycle/0.7 (motion only) or
ml_confidence/tracker-average with 0.6 when the key is absent (confidence
only); its motion quality is 0.8 raised to the tracker average when ML
data is available; and the machine resets to waiting. -/
theorem rep_state_machine_completion :
    ∀ (start now : ℚ) (phase : Option MotionPhase) (ml : Option ConfidenceCycleData),
      ((repMachineUpdate (RepMachineState.detecting start) phase ml now).2.isSome ↔
        ((phase = some MotionPhase.rest ∧ now - start > 1.0) ∨ ml.isSome = true)) ∧
      (∀ c, (repMachineUpdate (RepMachineState.detecting start) phase ml now).2 = some c →
        (c.duration = now - start ∧ c.start_time = start ∧ c.end_time = now ∧
          (repMachineUpdate (RepMachineState.detecting start) phase ml now).1 =
            RepMachineState.waiting ∧
          c.motion_quality =
            (match ml with
             | some d => max 0.8 (d.avg_confidence.getD 0.8)
             | none => 0.8) ∧
          ((phase = some MotionPhase.rest ∧ now - start > 1.0) → ml.isSome = true →
            c.detection_method = RepDetectionMethod.hybrid ∧ c.confidence = 0.9) ∧
          ((phase = some MotionPhase.rest ∧ now - start > 1.0) → ml = none →
            c.detection_method = RepDetectionMethod.motion_cycle ∧ c.confidence = 0.7) ∧
          (¬(phase = some MotionPhase.rest ∧ now - start > 1.0) →
            ∀ d, ml = some d →
              c.detection_method = RepDetectionMethod.ml_confidence ∧
                c.confidence = d.avg_confidence.getD 0.6))) := by
  intro start now phase ml
  by_cases hm : phase = some MotionPhase.rest ∧ now - start > 1.0
  · rcases ml with _ | d
    · refine ⟨by simp [repMachineUpdate, hm], ?_⟩
      intro c hc
      simp [repMachineUpdate, hm] at hc
      subst hc
      simp [repMachineUpdate, hm]
    · refine ⟨by simp [repMachineUpdate, hm], ?_⟩
      intro c hc
      simp [repMachineUpdate, hm] at hc
      subst hc
      simp [repMachineUpdate, hm]
  · rcases ml with _ | d
    · refine ⟨by simp [repMachineUpdate, hm], ?_⟩
      intro c hc
      simp [repMachineUpdate, hm] at hc
    · refine ⟨by simp [repMachineUpdate, hm], ?_⟩
      intro c hc
      simp [repMachineUpdate, hm] at hc
      subst hc
      simp [repMachineUpdate, hm]

end Progo
namespace Progo

/-- C8 witness: the completion clauses applied to the concrete motion-only
completion from `detecting 0` at time 2 in phase rest. -/
theorem rep_state_machine_completion_witness :
    c8Candidate.duration = 2 - 0 ∧ c8Candidate.start_time = 0 ∧ c8Candidate.end_time = 2 ∧
    (repMachineUpdate (RepMachineState.detecting 0) (some MotionPhase.rest) none 2).1 =
      RepMachineState.waiting ∧
    c8Candidate.detection_method = RepDetectionMethod.motion_cycle ∧
    c8Candidate.confidence = 0.7 :=
  have h2 : (repMachineUpdate (RepMachineState.detecting 0) (some MotionPhase.rest) none 2).2 =
      some c8Candidate := by with_unfolding_all rfl
  have h := (rep_state_machine_completion 0 2 (some MotionPhase.rest) none).2 c8Candidate h2
  have hcond : (some MotionPhase.rest = some MotionPhase.rest ∧ (2 : ℚ) - 0 > 1.0) :=
    ⟨rfl, by with_unfolding_all decide⟩
  ⟨h.1, h.2.1, h.2.2.1, h.2.2.2.1, (h.2.2.2.2.2.2.1 hcond rfl).1, (h.2.2.2.2.2.2.1 hcond rfl).2⟩

/-- C9: for every device and buffer state, prediction with no active model
package fails with the no-model-loaded error, and — with a model active —
a device buffer holding fewer samples than the artifact's configured
window size fails with the insufficient-window error. -/
theorem predict_no_model_guards :
    (∀ (bufs : List (String × List SensorReading)) (device : String),
        predictExercise ⟨none, bufs⟩ device = Except.error PredictError.noModelLoaded) ∧
    (∀ (pkg : ModelPackage) (bufs : List (String × List SensorReading)) (device : String)
        (buffer : List SensorReading),
        bufs.lookup device = some buffer → buffer.length < pkg.window_size →
        predictExercise ⟨some pkg, bufs⟩ device =
          Except.error PredictError.insufficientWindow) := by
  refine ⟨fun bufs device => rfl, ?_⟩
  intro pkg bufs device buffer hlook hlen
  simp [predictExercise, hlook, hlen]

/-- C9 witness: both error paths at a concrete device with an empty buffer
against the default 200-sample window. -/
theorem predict_no_model_guards_witness :
    predictExercise ⟨none, [("device_1", [])]⟩ "device_1" =
      Except.error PredictError.noModelLoaded ∧
    predictExercise ⟨some c9Package, [("device_1", [])]⟩ "device_1" =
      Except.error PredictError.insufficientWindow :=
  ⟨predict_no_model_guards.1 [("device_1", [])] "device_1",
   predict_no_model_guards.2 c9Package [("device_1", [])] "device_1" [] (by simp) (by decide)⟩

/-- C10: every candidate the rep state machine returns has motion quality
at least 0.8 (the 0.8 default is only ever raised by the tracker average),
so the workout coordinator's form-warning branch (quality below 0.6) is
unreachable for these candidates. -/
theorem motion_quality_invariant :
    ∀ (st : RepMachineState) (phase : Option MotionPhase) (ml : Option ConfidenceCycleData)
      (now : ℚ) (c : RepCandidate),
      (repMachineUpdate st phase ml now).2 = some c →
      0.8 ≤ c.motion_quality ∧ formWarningTriggered c = false := by
  intro st phase ml now c hc
  have h08 : (0.8 : ℚ) ≤ c.motion_quality := by
    rcases st with _ | start
    · simp only [repMachineUpdate] at hc
      split at hc <;> simp at hc
    · rcases ml with _ | d
      · have hq := ((rep_state_machine_completion start now phase none).2 c hc).2.2.2.2.1
        rw [hq]
      · have hq := ((rep_state_machine_completion start now phase (some d)).2 c hc).2.2.2.2.1
        rw [hq]
        exact le_max_left _ _
  refine ⟨h08, ?_⟩
  have hnot : ¬ (c.motion_quality < 0.6) := by
    intro hlt
    have h68 : (0.6 : ℚ) < 0.8 := by norm_num
    exact absurd (lt_of_lt_of_le h68 h08) (not_lt.mpr (le_of_lt hlt))
  simp [formWarningTriggered, hnot]

/-- C10 witness: the invariant at the concrete candidate produced from
`detecting 0` at time 2 in phase rest. -/
theorem motion_quality_invariant_witness :
    (0.8 : ℚ) ≤ c8Candidate.motion_quality ∧ formWarningTriggered c8Candidate = false :=
  motion_quality_invariant (RepMachineState.detecting 0) (some MotionPhase.rest) none 2
    c8Candidate (by with_unfolding_all rfl)

end Progo
namespace Progo

/-- Keys of the statistical block do not depend on the data. -/
theorem statPairs_keys (pre ax : String) (xs : List ℚ) :
    (statPairs pre ax xs).map Prod.fst = statKeys pre ax := rfl

/-- Keys of the magnitude block do not depend on the data. -/
theorem magPairs_keys (pre : String) (m : List ℚ) :
    (magPairs pre m).map Prod.fst = magKeys pre := rfl

/-- Keys of the spectral block do not depend on the data. -/
theorem freqPairs_keys (pre ax : String) (xs : List ℚ) :
    (freqPairs pre ax xs).map Prod.fst = freqKeys pre ax := rfl

/-- Keys of a sensor block depend only on whether the window reaches the
32-sample spectral threshold. -/
theorem sensorFeatures_keys (pre : String) (data : List (ℚ × ℚ × ℚ)) :
    (sensorFeatures pre data).map Prod.fst = sensorKeys pre (decide (32 ≤ data.length)) := by
  by_cases h : 32 ≤ data.length <;>
    simp [sensorFeatures, sensorKeys, h, statPairs_keys, magPairs_keys, freqPairs_keys]

/-- Keys of the cross-sensor block are fixed. -/
theorem crossFeatures_keys (a g : List (ℚ × ℚ × ℚ)) :
    (crossFeatures a g).map Prod.fst = crossKeys := rfl

/-- Keys of the temporal block are fixed (the guards select between
branches with identical keys). -/
theorem temporalFeatures_keys (ts : List ℚ) (a : List (ℚ × ℚ × ℚ)) :
    (temporalFeatures ts a).map Prod.fst = temporalKeys := by
  by_cases h1 : ts.length > 1 <;> by_cases h2 : 20 < a.length <;>
    simp [temporalFeatures, temporalKeys, h1, h2, List.length_map]

/-- The keys of the full feature dictionary. -/
theorem extractCore_keys (readings : List SensorReading) :
    (extractFeaturesCore readings).map Prod.fst =
      featureKeys (hasMagData readings) (decide (32 ≤ readings.length)) := by
  simp [extractFeaturesCore, featureKeys, sensorFeatures_keys, crossFeatures_keys,
    temporalFeatures_keys, List.length_map]
  by_cases h : hasMagData readings <;> simp [h, sensorFeatures_keys, List.length_map]

end Progo
namespace Progo

/-- In the statistical block only the skew and kurtosis entries can hold
NaN. -/
theorem statPairs_nan {pre ax : String} {xs : List ℚ} {p : String × Option ℚ}
    (hp : p ∈ statPairs pre ax xs) (h : p.2 = none) :
    p.1 = pre ++ "_" ++ ax ++ "_skew" ∨ p.1 = pre ++ "_" ++ ax ++ "_kurtosis" := by
  simp only [statPairs, List.mem_cons, List.not_mem_nil, or_false] at hp
  rcases hp with rfl | rfl | rfl | rfl | rfl | rfl | rfl | rfl | rfl | rfl | rfl <;> simp_all

/-- Magnitude features are never NaN. -/
theorem magPairs_not_nan {pre : String} {m : List ℚ} {p : String × Option ℚ}
    (hp : p ∈ magPairs pre m) : p.2 ≠ none := by
  simp only [magPairs, List.mem_cons, List.not_mem_nil, or_false] at hp
  rcases hp with rfl | rfl | rfl | rfl | rfl <;> simp

/-- Spectral features are never NaN (the centroid's division is guarded by
`sum > 0`). -/
theorem freqPairs_not_nan {pre ax : String} {xs : List ℚ} {p : String × Option ℚ}
    (hp : p ∈ freqPairs pre ax xs) : p.2 ≠ none := by
  simp only [freqPairs, List.mem_cons, List.not_mem_nil, or_false] at hp
  rcases hp with rfl | rfl | rfl | rfl | rfl <;> simp

/-- Cross-sensor features are never NaN: an undefined correlation resolves
to 0.0 and the ratio's division is guarded. -/
theorem crossFeatures_not_nan {a g : List (ℚ × ℚ × ℚ)} {p : String × Option ℚ}
    (hp : p ∈ crossFeatures a g) : p.2 ≠ none := by
  simp only [crossFeatures, List.mem_cons, List.not_mem_nil, or_false] at hp
  rcases hp with rfl | rfl | rfl | rfl | rfl <;> simp

/-- Temporal features are never NaN (rate and rhythm divisions are
guarded). -/
theorem temporalFeatures_not_nan {ts : List ℚ} {a : List (ℚ × ℚ × ℚ)}
    {p : String × Option ℚ} (hp : p ∈ temporalFeatures ts a) : p.2 ≠ none := by
  by_cases h1 : ts.length > 1 <;> by_cases h2 : 20 < a.length <;>
    simp [temporalFeatures, h1, h2, List.length_map] at hp <;>
    rcases hp with rfl | rfl | rfl | rfl | rfl <;> simp

/-- In one sensor block, a NaN value identifies a skew/kurtosis key. -/
theorem sensorFeatures_nan {pre : String} {data : List (ℚ × ℚ × ℚ)} {p : String × Option ℚ}
    (hp : p ∈ sensorFeatures pre data) (h : p.2 = none) :
    p.1 ∈ sensorSkewKurtKeys pre := by
  simp only [sensorFeatures, List.append_assoc, List.mem_append] at hp
  rcases hp with hp | hp | hp | hp | hp
  · rcases statPairs_nan hp h with h1 | h1 <;> rw [h1] <;> simp [sensorSkewKurtKeys]
  · rcases statPairs_nan hp h with h1 | h1 <;> rw [h1] <;> simp [sensorSkewKurtKeys]
  · rcases statPairs_nan hp h with h1 | h1 <;> rw [h1] <;> simp [sensorSkewKurtKeys]
  · exact absurd h (magPairs_not_nan hp)
  · by_cases h32 : 32 ≤ data.length
    · rw [if_pos h32] at hp
      rcases List.mem_append.1 hp with hp | hp
      · exact absurd h (freqPairs_not_nan hp)
      · rcases List.mem_append.1 hp with hp | hp
        · exact absurd h (freqPairs_not_nan hp)
        · exact absurd h (freqPairs_not_nan hp)
    · rw [if_neg h32] at hp
      exact absurd hp (List.not_mem_nil p)

/-- In the full feature dictionary, a NaN value identifies a skew/kurtosis
key. -/
theorem extractCore_nan {readings : List SensorReading} {p : String × Option ℚ}
    (hp : p ∈ extractFeaturesCore readings) (h : p.2 = none) :
    p.1 ∈ skewKurtKeyList := by
  have haccel : ∀ k ∈ sensorSkewKurtKeys "accel", k ∈ skewKurtKeyList := by decide
  have hgyro : ∀ k ∈ sensorSkewKurtKeys "gyro", k ∈ skewKurtKeyList := by decide
  have hmag : ∀ k ∈ sensorSkewKurtKeys "mag", k ∈ skewKurtKeyList := by decide
  simp only [extractFeaturesCore, List.append_assoc, List.mem_append] at hp
  rcases hp with hp | hp | hp | hp | hp
  · exact haccel _ (sensorFeatures_nan hp h)
  · exact hgyro _ (sensorFeatures_nan hp h)
  · by_cases hm : hasMagData readings
    · rw [if_pos hm] at hp
      exact hmag _ (sensorFeatures_nan hp h)
    · rw [if_neg hm] at hp
      exact absurd hp (List.not_mem_nil p)
  · exact absurd h (crossFeatures_not_nan hp)
  · exact absurd h (temporalFeatures_not_nan hp)

end Progo
namespace Progo

/-- C4 counterexample: the 10-sample constant window is a valid input
(size ≥ 10) whose feature dictionary stores NaN for `accel_x_skew` —
skewness of a zero-variance axis — contradicting the claim that every
produced feature is non-NaN. -/
theorem extract_constant_window_skew_nan :
    10 ≤ c4Window.length ∧
    (extractFeaturesCore c4Window).lookup "accel_x_skew" = some none := by
  refine ⟨by decide, ?_⟩
  with_unfolding_all rfl

/-- C4 (amended): for every window of at least 10 readings, any NaN value
in the feature dictionary sits at a per-axis skewness or kurtosis key
(everything else — guarded correlations and ratio included — is non-NaN),
and on the constant window the undefined accel/gyro correlation and the
undefined accel/gyro magnitude ratio resolve to 0.0. -/
theorem extract_no_nan_except_skew_kurtosis :
    (∀ readings : List SensorReading, 10 ≤ readings.length →
        ∀ p ∈ extractFeaturesCore readings, p.2 = none → p.1 ∈ skewKurtKeyList) ∧
    (extractFeaturesCore c4Window).lookup "accel_gyro_x_correlation" = some (some 0) ∧
    (extractFeaturesCore c4Window).lookup "accel_gyro_ratio" = some (some 0) := by
  refine ⟨fun readings _ p hp h => extractCore_nan hp h, ?_, ?_⟩ <;> with_unfolding_all rfl

/-- C4 witness: the NaN-localisation clause applied to the constant
window at the `accel_x_skew` entry. -/
theorem extract_no_nan_witness : ("accel_x_skew" : String) ∈ skewKurtKeyList :=
  extract_no_nan_except_skew_kurtosis.1 c4Window (by decide) ("accel_x_skew", none)
    (by with_unfolding_all decide) rfl

set_option maxRecDepth 40000 in
/-- C5: windows of fewer than 10 readings fail with the
insufficient-window error; windows of 10–31 readings produce a feature
dictionary with no spectral keys; windows of at least 32 readings contain
the spectral keys of the always-present accelerometer and gyroscope
blocks. -/
theorem extract_window_gating :
    (∀ readings : List SensorReading, readings.length < 10 →
        extractFeaturesFromReadings readings = Except.error FeatureError.insufficientWindow) ∧
    (∀ readings : List SensorReading, 10 ≤ readings.length → readings.length < 32 →
        ∀ p ∈ extractFeaturesCore readings, p.1 ∉ spectralKeyList) ∧
    (∀ readings : List SensorReading, 32 ≤ readings.length →
        ∀ k ∈ accelGyroSpectralKeys, k ∈ (extractFeaturesCore readings).map Prod.fst) := by
  refine ⟨?_, ?_, ?_⟩
  · intro readings h
    simp [extractFeaturesFromReadings, h]
  · intro readings h10 h32 p hp
    have hk : p.1 ∈ featureKeys (hasMagData readings) (decide (32 ≤ readings.length)) := by
      rw [← extractCore_keys]
      exact List.mem_map_of_mem _ hp
    rw [decide_eq_false (by omega : ¬ 32 ≤ readings.length)] at hk
    have hall : ∀ hm : Bool, ∀ k ∈ featureKeys hm false, k ∉ spectralKeyList := by
      intro hm
      cases hm <;> decide
    exact hall _ _ hk
  · intro readings h32 k hk
    rw [extractCore_keys, decide_eq_true h32]
    have hall : ∀ hm : Bool, ∀ k ∈ accelGyroSpectralKeys, k ∈ featureKeys hm true := by
      intro hm
      cases hm <;> decide
    exact hall _ _ hk

/-- C5 witness: the three clauses at concrete windows of 5, 10 and 32
constant readings. -/
theorem extract_window_gating_witness :
    extractFeaturesFromReadings (mkConstReadings 5) =
      Except.error FeatureError.insufficientWindow ∧
    "accel_x_spectral_centroid" ∉ (extractFeaturesCore (mkConstReadings 10)).map Prod.fst ∧
    "accel_x_spectral_centroid" ∈ (extractFeaturesCore (mkConstReadings 32)).map Prod.fst := by
  refine ⟨extract_window_gating.1 (mkConstReadings 5) (by decide), ?_, ?_⟩
  · intro hmem
    rcases List.mem_map.1 hmem with ⟨p, hp, hk⟩
    have h := extract_window_gating.2.1 (mkConstReadings 10) (by decide) (by decide) p hp
    rw [hk] at h
    exact h (by decide)
  · exact extract_window_gating.2.2 (mkConstReadings 32) (by decide) _ (by decide)

end Progo
namespace Progo

/-- C1 counterexample: with only two accepted rep durations `[3.0, 3.0]`,
`_update_rep_patterns` returns early (`len(rep_durations) < 3`) and the
stored pattern keeps `avg_rep_duration = 2.0` and
`training_session_count = 1` — not the claimed 2.5 and 2. -/
theorem rep_pattern_update_two_durations_no_update :
    updateRepPatterns (some c1Pattern) [3, 3] = some c1Pattern ∧
    (updateRepPatterns (some c1Pattern) [3, 3]).map RepPattern.avg_rep_duration ≠
      some 2.5 ∧
    (updateRepPatterns (some c1Pattern) [3, 3]).map RepPattern.training_session_count ≠
      some 2 := by
  refine ⟨by with_unfolding_all rfl, ?_, ?_⟩ <;> with_unfolding_all decide

/-- C1 (amended): with at least 3 accepted rep durations the update blends
the old average with the workout mean using weights `n/(n+1)` and
`1/(n+1)`, widens min/max, increments the sample count and raises the
confidence capped at 0.95 — concretely `[3.0, 3.0, 3.0]` against
`(avg=2.0, n=1)` gives `avg = 2.5`, `n = 2`; with fewer than 3 durations
the pattern is left unchanged. -/
theorem rep_pattern_update_blend :
    (∀ (p : RepPattern) (ds : List ℚ), 3 ≤ ds.length →
        updateRepPatterns (some p) ds =
          some { avg_rep_duration :=
                   p.avg_rep_duration *
                       ((p.training_session_count : ℚ) / ((p.training_session_count : ℚ) + 1)) +
                     listMean ds * (1 / ((p.training_session_count : ℚ) + 1))
                 min_rep_duration := min p.min_rep_duration (listMin ds)
                 max_rep_duration := max p.max_rep_duration (listMax ds)
                 avg_rest_between_reps := p.avg_rest_between_reps
                 training_session_count := p.training_session_count + 1
                 confidence_score := min 0.95 (p.confidence_score + 0.05) }) ∧
    updateRepPatterns (some c1Pattern) [3, 3, 3] =
      some { avg_rep_duration := 2.5
             min_rep_duration := 1
             max_rep_duration := 4
             avg_rest_between_reps := 2
             training_session_count := 2
             confidence_score := 0.75 } ∧
    (∀ (pat : Option RepPattern) (ds : List ℚ), ds.length < 3 →
        updateRepPatterns pat ds = pat) := by
  refine ⟨?_, by with_unfolding_all decide, ?_⟩
  · intro p ds h
    unfold updateRepPatterns
    rw [if_neg (by omega)]
  · intro pat ds h
    unfold updateRepPatterns
    rw [if_pos h]

/-- C1 witness: the blend rule applied to the concrete pattern of the claim
with durations `[4, 4, 4]`, and the below-minimum no-op with `[3, 3]`. -/
theorem rep_pattern_update_blend_witness :
    (updateRepPatterns (some c1Pattern) [4, 4, 4] =
      some { avg_rep_duration :=
               c1Pattern.avg_rep_duration *
                   ((c1Pattern.training_session_count : ℚ) /
                     ((c1Pattern.training_session_count : ℚ) + 1)) +
                 listMean [4, 4, 4] * (1 / ((c1Pattern.training_session_count : ℚ) + 1))
             min_rep_duration := min c1Pattern.min_rep_duration (listMin [4, 4, 4])
             max_rep_duration := max c1Pattern.max_rep_duration (listMax [4, 4, 4])
             avg_rest_between_reps := c1Pattern.avg_rest_between_reps
             training_session_count := c1Pattern.training_session_count + 1
             confidence_score := min 0.95 (c1Pattern.confidence_score + 0.05) }) ∧
    updateRepPatterns (some c1Pattern) [3, 3] = some c1Pattern :=
  ⟨rep_pattern_update_blend.1 c1Pattern [4, 4, 4] (by decide),
   rep_pattern_update_blend.2.2 (some c1Pattern) [3, 3] (by decide)⟩

/-- C2: a 2-set × 3-rep workout with 6 accepted reps emits a rep-completed
event on every rep, set-completed events exactly after reps 3 and 6, one
workout-completed event (status becomes completed), and the counters are
`(current_set, current_reps) = (2, 0)` immediately after the first set
boundary. -/
theorem workout_progression_2x3 :
    (runReps 6 (startWorkoutSession 2 3)).2.map RepHandleEvents.rep_completed =
      [true, true, true, true, true, true] ∧
    (runReps 6 (startWorkoutSession 2 3)).2.map RepHandleEvents.set_completed =
      [false, false, true, false, false, true] ∧
    (runReps 6 (startWorkoutSession 2 3)).2.map RepHandleEvents.workout_completed =
      [false, false, false, false, false, true] ∧
    (runReps 6 (startWorkoutSession 2 3)).1.status = WorkoutStatus.completed ∧
    (runReps 3 (startWorkoutSession 2 3)).1.current_set = 2 ∧
    (runReps 3 (startWorkoutSession 2 3)).1.current_reps = 0 := by
  decide

end Progo
namespace Progo

/-- C3: `validate_rep_timing` rejects a candidate exactly when a previous
rep was accepted and the elapsed time since it is below the minimum-rest
threshold, or the duration lies outside the learned (or default) duration
window; with the pattern `avg=2.0, min=1.0, max=4.0` a 2.1 s candidate 3 s
after the last accepted rep is accepted, a 0.5 s candidate is rejected,
and any candidate 0.1 s after the previous acceptance is rejected
regardless of duration. -/
theorem timing_validator_spec :
    (∀ (v : TimingValidator) (d e : ℚ),
        validateRepTiming v d e = false ↔
          ((∃ t, v.last_rep_time = some t ∧ e - t < minRestTime v) ∨
            d < (durationBounds v).1 ∨ (durationBounds v).2 < d)) ∧
    validateRepTiming ⟨some c3Pattern, some 0⟩ 2.1 3 = true ∧
    validateRepTiming ⟨some c3Pattern, some 0⟩ 0.5 3 = false ∧
    (∀ d : ℚ, validateRepTiming ⟨some c3Pattern, some 0⟩ d 0.1 = false) := by
  refine ⟨?_, by with_unfolding_all rfl, by with_unfolding_all rfl,
          fun d => by with_unfolding_all rfl⟩
  intro v d e
  rcases v with ⟨pat, last⟩
  have boundsCase : ∀ (P : Prop), ¬P → ∀ lo hi : ℚ,
      ((if lo ≤ d ∧ d ≤ hi then true else false) = false ↔ (P ∨ d < lo ∨ hi < d)) := by
    intro P hP lo hi
    by_cases h1 : lo ≤ d ∧ d ≤ hi
    · rw [if_pos h1]
      constructor
      · intro h; exact absurd h (by simp)
      · rintro (h | h | h)
        · exact absurd h hP
        · exact absurd h (not_lt.mpr h1.1)
        · exact absurd h (not_lt.mpr h1.2)
    · rw [if_neg h1]
      exact iff_of_true rfl (Or.inr ((not_and_or.mp h1).imp not_le.mp not_le.mp))
  rcases last with _ | t
  · have hred : validateRepTiming ⟨pat, none⟩ d e =
        (if (durationBounds ⟨pat, none⟩).1 ≤ d ∧ d ≤ (durationBounds ⟨pat, none⟩).2
         then true else false) := by
      rcases pat with _ | p <;> rfl
    rw [hred]
    exact boundsCase _ (by rintro ⟨t, ht, _⟩; exact Option.noConfusion ht) _ _
  · by_cases hs : e - t < minRestTime ⟨pat, some t⟩
    · have hred : validateRepTiming ⟨pat, some t⟩ d e = false := by
        rcases pat with _ | p <;> simp [validateRepTiming, minRestTime] at hs ⊢ <;>
          simp [hs]
      rw [hred]
      exact iff_of_true rfl (Or.inl ⟨t, rfl, hs⟩)
    · have hred : validateRepTiming ⟨pat, some t⟩ d e =
          (if (durationBounds ⟨pat, some t⟩).1 ≤ d ∧ d ≤ (durationBounds ⟨pat, some t⟩).2
           then true else false) := by
        rcases pat with _ | p <;> simp [validateRepTiming, minRestTime] at hs ⊢ <;>
          simp [hs, durationBounds]
      rw [hred]
      refine boundsCase _ ?_ _ _
      rintro ⟨t', ht', hlt⟩
      cases ht'
      exact hs hlt

end Progo
